import Mathlib

/-!
Verification of the Termux scientific-environment validation script
(`src/scientific-libraries-test.py`).

The script is a sequential check runner: a registry of (display name,
module identifier, verification function) triples is iterated; each
check imports its module, reports a version, runs a smoke test, and
records failures in a list; the process exits 0 when the list is empty
and 1 otherwise.

The embedding is shallow: console output is a list of `Line` values (one
constructor per distinct print statement), Python exceptions caught by
the per-check `except Exception` handler are `Except String` values
carrying the exception message, and the dynamic outcome of each check
(whether the module load and the verification function raise) is an
environment parameter.  The mutable `failures` list is threaded through
explicitly.
-/

namespace TermuxSci

/-- A Python module as observed by `module_version` (lines 12-16 of the
source): for each of the three recognized attribute names, `some s` means
the attribute is present and its `str(...)` form is `s`; `none` means
`hasattr` is false. -/
structure Module where
  version_dunder : Option String
  version_plain : Option String
  version_upper : Option String
deriving DecidableEq

/-- Embeds `module_version` (source lines 12-16): try the attributes
`__version__`, `version`, `VERSION` in that fixed order, returning the
string form of the first one present, else the literal `"unknown"`. -/
def module_version (m : Module) : String :=
  match m.version_dunder with
  | some v => v
  | none =>
    match m.version_plain with
    | some v => v
    | none =>
      match m.version_upper with
      | some v => v
      | none => "unknown"

/-- One console output line; one constructor per distinct print site in
the source.  `tracebackDepth1` stands for the output of
`traceback.print_exc(limit=1)`. -/
inductive Line where
  | checkHeader (name : String)
  | moduleLine (import_name : String)
  | versionLine (v : String)
  | statusOK
  | statusFail (msg : String)
  | tracebackDepth1
  | pythonExecutable (path : String)
  | pythonVersion (v : String)
  | blank
  | resultHeader
  | failedSummary (count : Nat) (names : List String)
  | successLine
deriving DecidableEq

/-- Dynamic outcome of one check's load-or-verify sequence:
`importResult` is the result of `importlib.import_module` (an error value
carries the exception message caught by `except Exception`), and
`fnResult` is the result of calling the check's verification function. -/
structure CheckEnv where
  importResult : Except String Module
  fnResult : Except String Unit

/-- Whether the check's load-or-verify sequence raises. -/
def CheckEnv.fails (e : CheckEnv) : Bool :=
  match e.importResult with
  | Except.error _ => true
  | Except.ok _ =>
    match e.fnResult with
    | Except.error _ => true
    | Except.ok _ => false

/-- Embeds `run_check` (source lines 19-30).  The whole body after the
header print sits in one try block: if the import raises, the module and
version lines are never printed; any exception appends `name` to
`failures` and prints the FAIL status plus a depth-1 traceback.  The
mutated `failures` list is returned explicitly. -/
def run_check (name import_name : String) (e : CheckEnv) (failures : List String) :
    List Line × List String :=
  match e.importResult with
  | Except.error exc =>
    ([Line.checkHeader name, Line.statusFail exc, Line.tracebackDepth1],
     failures ++ [name])
  | Except.ok m =>
    match e.fnResult with
    | Except.ok _ =>
      ([Line.checkHeader name, Line.moduleLine import_name,
        Line.versionLine (module_version m), Line.statusOK],
       failures)
    | Except.error exc =>
      ([Line.checkHeader name, Line.moduleLine import_name,
        Line.versionLine (module_version m), Line.statusFail exc,
        Line.tracebackDepth1],
       failures ++ [name])

/-- The full-profile check registry (source lines 154-165): display name
and importable module identifier of each check, in source order.  The
verification functions themselves are dynamic and live in `CheckEnv`. -/
def full_checks : List (String × String) :=
  [("NumPy", "numpy"), ("Pandas", "pandas"), ("Matplotlib", "matplotlib"),
   ("SciPy", "scipy"), ("Scikit-learn", "sklearn"),
   ("Statsmodels", "statsmodels"), ("OpenCV", "cv2"), ("Seaborn", "seaborn"),
   ("OpenPyXL", "openpyxl"), ("JupyterLab", "jupyterlab")]

/-- The lite-profile check registry (source lines 166-171). -/
def lite_checks : List (String × String) :=
  [("NumPy", "numpy"), ("Pandas", "pandas"), ("Matplotlib", "matplotlib"),
   ("JupyterLab", "jupyterlab")]

/-- The check loop of `main` (source lines 174-175): run each check in
order, accumulating output and threading the failures list. -/
def runChecks (checks : List (String × String)) (env : String → CheckEnv) :
    List Line × List String :=
  checks.foldl
    (fun acc c =>
      let r := run_check c.1 c.2 (env c.1) acc.2
      (acc.1 ++ r.1, r.2))
    ([], [])

/-- Embeds `main` (source lines 148-183) after successful argument
parsing: print the two Python preamble lines, run the selected check
sequence, print the result header, then either the failure summary
(returning 1) or the success line (returning 0). -/
def main_run (pyExe pyVer : String) (lite : Bool) (env : String → CheckEnv) :
    List Line × Nat :=
  let checks := if lite then lite_checks else full_checks
  let r := runChecks checks env
  let out := Line.pythonExecutable pyExe :: Line.pythonVersion pyVer :: r.1
      ++ [Line.blank, Line.resultHeader]
  match r.2 with
  | [] => (out ++ [Line.successLine], 0)
  | _ => (out ++ [Line.failedSummary r.2.length r.2], 1)

/-- Models the Python argparse library behavior for the parser built in
`parse_args` (source lines 138-145): the only recognized argument is the
boolean flag `--lite`; per argparse semantics, a positional argument or an
unrecognized option makes the parser print an error and exit the process
with status 2.  Help options and abbreviated flags are outside this
model. -/
def parse_args (argv : List String) : Except Nat Bool :=
  if argv.all (fun a => a = "--lite") then Except.ok (argv.contains "--lite")
  else Except.error 2

/-- The whole program (source lines 148-151 and 186-187): argument
parsing happens before the preamble and before any check; an argparse
error terminates the process with its status and no stdout output. -/
def program (pyExe pyVer : String) (argv : List String) (env : String → CheckEnv) :
    List Line × Nat :=
  match parse_args argv with
  | Except.error code => ([], code)
  | Except.ok lite => main_run pyExe pyVer lite env

/-- The display names printed by `[CHECK]` header lines, in output
order. -/
def headersOf (out : List Line) : List String :=
  out.filterMap (fun l =>
    match l with
    | Line.checkHeader n => some n
    | _ => none)

/-- The final summary line (source lines 177-183): the failure count and
names when the list is non-empty, the success message otherwise. -/
def summaryLines (fs : List String) : List Line :=
  match fs with
  | [] => [Line.successLine]
  | _ => [Line.failedSummary fs.length fs]

/-- A module whose `__version__` attribute is present with string form
`"1.0"`. -/
def sampleModule : Module := ⟨some "1.0", none, none⟩

/-- Environment in which every import and every verification function
succeeds. -/
def allOkEnv : String → CheckEnv :=
  fun _ => ⟨Except.ok sampleModule, Except.ok ()⟩

/-- Environment in which exactly the Pandas check's verification function
raises. -/
def pandasFailEnv : String → CheckEnv :=
  fun n =>
    if n = "Pandas" then ⟨Except.ok sampleModule, Except.error "boom"⟩
    else ⟨Except.ok sampleModule, Except.ok ()⟩

/-- The output lines of `run_check` do not depend on the incoming
failures list. -/
theorem run_check_fst_indep (n i : String) (e : CheckEnv) (f : List String) :
    (run_check n i e f).1 = (run_check n i e []).1 := by
  rcases e with ⟨ir, fr⟩
  cases ir <;> cases fr <;> rfl

/-- `run_check` appends the display name to the failures list exactly
when the check's load-or-verify sequence raises. -/
theorem run_check_snd (n i : String) (e : CheckEnv) (f : List String) :
    (run_check n i e f).2 = f ++ (if e.fails then [n] else []) := by
  rcases e with ⟨ir, fr⟩
  cases ir <;> cases fr <;> simp [run_check, CheckEnv.fails]

/-- Exactly one `[CHECK]` header appears in `run_check`'s output, naming
the check. -/
theorem headersOf_run_check (n i : String) (e : CheckEnv) (f : List String) :
    headersOf (run_check n i e f).1 = [n] := by
  rcases e with ⟨ir, fr⟩
  cases ir <;> cases fr <;> rfl

theorem headersOf_append (a b : List Line) :
    headersOf (a ++ b) = headersOf a ++ headersOf b := by
  simp [headersOf]

/-- Closed form of the check loop's fold from an arbitrary starting
accumulator. -/
theorem runChecks_fold (cs : List (String × String)) (env : String → CheckEnv)
    (out0 : List Line) (f0 : List String) :
    cs.foldl
      (fun acc c =>
        let r := run_check c.1 c.2 (env c.1) acc.2
        (acc.1 ++ r.1, r.2))
      (out0, f0) =
    (out0 ++ (cs.map (fun c => (run_check c.1 c.2 (env c.1) []).1)).flatten,
     f0 ++ (cs.filter (fun c => (env c.1).fails)).map Prod.fst) := by
  induction cs generalizing out0 f0 with
  | nil => simp
  | cons c cs ih =>
    simp only [List.foldl_cons, List.map_cons, List.flatten, List.filter_cons]
    rw [ih]
    rw [run_check_fst_indep, run_check_snd]
    cases h : (env c.1).fails <;> simp [List.append_assoc]

/-- The failures list produced by the loop is the in-order list of
display names of the checks whose environment makes them raise. -/
theorem runChecks_snd (cs : List (String × String)) (env : String → CheckEnv) :
    (runChecks cs env).2 = (cs.filter (fun c => (env c.1).fails)).map Prod.fst := by
  unfold runChecks
  rw [runChecks_fold]
  simp

/-- The output of the loop is the concatenation of the per-check
outputs, in order. -/
theorem runChecks_fst (cs : List (String × String)) (env : String → CheckEnv) :
    (runChecks cs env).1 =
      (cs.map (fun c => (run_check c.1 c.2 (env c.1) []).1)).flatten := by
  unfold runChecks
  rw [runChecks_fold]
  simp

/-- The header trace of the loop is the check names in registry order,
independent of any failures. -/
theorem headersOf_runChecks (cs : List (String × String)) (env : String → CheckEnv) :
    headersOf (runChecks cs env).1 = cs.map Prod.fst := by
  rw [runChecks_fst]
  induction cs with
  | nil => rfl
  | cons c cs ih =>
    simp only [List.map_cons, List.flatten_cons, headersOf_append, ih,
      headersOf_run_check, List.singleton_append]

/-- The output of `main_run` decomposes as the two preamble lines, the
check loop output, the result header block, and the summary line. -/
theorem main_run_fst (p v : String) (lite : Bool) (env : String → CheckEnv) :
    (main_run p v lite env).1 =
      Line.pythonExecutable p :: Line.pythonVersion v ::
        ((runChecks (if lite then lite_checks else full_checks) env).1 ++
          [Line.blank, Line.resultHeader] ++
          summaryLines (runChecks (if lite then lite_checks else full_checks) env).2) := by
  unfold main_run
  cases h : (runChecks (if lite then lite_checks else full_checks) env).2 <;>
    simp [h, summaryLines, List.append_assoc]

/-- The exit status of `main_run` is decided by emptiness of the
accumulated failures list. -/
theorem main_run_snd (p v : String) (lite : Bool) (env : String → CheckEnv) :
    (main_run p v lite env).2 =
      (if (runChecks (if lite then lite_checks else full_checks) env).2 = []
       then 0 else 1) := by
  unfold main_run
  cases h : (runChecks (if lite then lite_checks else full_checks) env).2 <;>
    simp [h]

theorem headersOf_summaryLines (fs : List String) :
    headersOf (summaryLines fs) = [] := by
  cases fs <;> rfl

theorem headersOf_nil : headersOf [] = [] := rfl

/-- Only `checkHeader` lines contribute to the header trace. -/
theorem headersOf_cons (l : Line) (rest : List Line) :
    headersOf (l :: rest) =
      (match l with
       | Line.checkHeader n => [n]
       | _ => []) ++ headersOf rest := by
  cases l <;> rfl

/-- The run's header trace equals the selected registry's display names,
whatever the per-check outcomes are. -/
theorem headersOf_main_run (p v : String) (lite : Bool) (env : String → CheckEnv) :
    headersOf (main_run p v lite env).1 =
      (if lite then lite_checks else full_checks).map Prod.fst := by
  rw [main_run_fst]
  simp [headersOf_cons, headersOf_append, headersOf_summaryLines,
    headersOf_runChecks, headersOf_nil]

/-- C1: for every run, the exit status is 0 when the failure list is
empty after all selected checks have executed (and the success summary is
printed), and is exactly 1 when the failure list is non-empty, regardless
of how many checks failed. -/
theorem C1_exit_status (p v : String) (lite : Bool) (env : String → CheckEnv) :
    ((runChecks (if lite then lite_checks else full_checks) env).2 = [] →
      (main_run p v lite env).2 = 0 ∧
      Line.successLine ∈ (main_run p v lite env).1) ∧
    ((runChecks (if lite then lite_checks else full_checks) env).2 ≠ [] →
      (main_run p v lite env).2 = 1) := by
  constructor
  · intro h
    constructor
    · rw [main_run_snd, if_pos h]
    · rw [main_run_fst, h]
      simp [summaryLines]
  · intro h
    rw [main_run_snd, if_neg h]

/-- C1 witness: with every check passing, the exit status is 0 and the
success line is printed. -/
theorem C1_exit_status_witness :
    (main_run "py" "3.12" false allOkEnv).2 = 0 ∧
    Line.successLine ∈ (main_run "py" "3.12" false allOkEnv).1 :=
  (C1_exit_status "py" "3.12" false allOkEnv).1 (by decide)

/-- C2: the runner invokes each selected check exactly once, in sequence
order, and no check's failure prevents a later check from running: for
every environment (hence every pattern of failures) the header trace of
the run equals the selected check sequence's display names. -/
theorem C2_each_check_once (p v : String) (lite : Bool) (env : String → CheckEnv) :
    headersOf (main_run p v lite env).1 =
      (if lite then lite_checks else full_checks).map Prod.fst :=
  headersOf_main_run p v lite env

/-- C3: the lite sequence is a strict subsequence of the full sequence;
with the lite flag exactly the 4 designated checks execute and none of
the other 6 full-profile names ever appears; without the flag all 10
full-profile checks execute. -/
theorem C3_lite_strict_subset (p v : String) (env : String → CheckEnv) :
    lite_checks.Sublist full_checks ∧
    lite_checks ≠ full_checks ∧
    lite_checks.length = 4 ∧
    full_checks.length = 10 ∧
    headersOf (main_run p v true env).1 =
      ["NumPy", "Pandas", "Matplotlib", "JupyterLab"] ∧
    (["SciPy", "Scikit-learn", "Statsmodels", "OpenCV", "Seaborn",
      "OpenPyXL"].all
      (fun n => !(["NumPy", "Pandas", "Matplotlib", "JupyterLab"].contains n))
      = true) ∧
    headersOf (main_run p v false env).1 = full_checks.map Prod.fst := by
  refine ⟨by decide, by decide, by decide, by decide, ?_, by decide, ?_⟩
  · rw [headersOf_main_run]
    rfl
  · rw [headersOf_main_run]
    rfl

/-- C4: `module_version` returns `"unknown"` exactly when none of the
recognized attributes is present, and otherwise the string form of the
first present attribute in the fixed order `__version__`, `version`,
`VERSION`. -/
theorem C4_module_version (m : Module) :
    (m.version_dunder = none → m.version_plain = none →
      m.version_upper = none → module_version m = "unknown") ∧
    (∀ s, m.version_dunder = some s → module_version m = s) ∧
    (∀ s, m.version_dunder = none → m.version_plain = some s →
      module_version m = s) ∧
    (∀ s, m.version_dunder = none → m.version_plain = none →
      m.version_upper = some s → module_version m = s) := by
  rcases m with ⟨d, q, u⟩
  cases d <;> cases q <;> cases u <;> simp [module_version]

/-- C4 witness: concrete modules exercising the fallback order and the
`"unknown"` default. -/
theorem C4_module_version_witness :
    module_version ⟨none, none, none⟩ = "unknown" ∧
    module_version ⟨some "1.2", some "x", some "y"⟩ = "1.2" ∧
    module_version ⟨none, some "3.4", some "y"⟩ = "3.4" ∧
    module_version ⟨none, none, some "5"⟩ = "5" :=
  ⟨(C4_module_version ⟨none, none, none⟩).1 rfl rfl rfl,
   (C4_module_version ⟨some "1.2", some "x", some "y"⟩).2.1 "1.2" rfl,
   (C4_module_version ⟨none, some "3.4", some "y"⟩).2.2.1 "3.4" rfl rfl,
   (C4_module_version ⟨none, none, some "5"⟩).2.2.2 "5" rfl rfl rfl⟩

/-- C5: the failure list accumulated over a run is exactly the in-order
filter of the selected sequence by failure (order-preserving, no
omissions), has no duplicates, and when non-empty the printed summary
line carries exactly this list together with its count. -/
theorem C5_failure_summary (p v : String) (lite : Bool) (env : String → CheckEnv) :
    (runChecks (if lite then lite_checks else full_checks) env).2 =
      ((if lite then lite_checks else full_checks).filter
        (fun c => (env c.1).fails)).map Prod.fst ∧
    (runChecks (if lite then lite_checks else full_checks) env).2.Nodup ∧
    ((runChecks (if lite then lite_checks else full_checks) env).2 ≠ [] →
      Line.failedSummary
          (runChecks (if lite then lite_checks else full_checks) env).2.length
          (runChecks (if lite then lite_checks else full_checks) env).2 ∈
        (main_run p v lite env).1) := by
  refine ⟨runChecks_snd _ env, ?_, ?_⟩
  · rw [runChecks_snd]
    have hsub :
        (((if lite then lite_checks else full_checks).filter
            (fun c => (env c.1).fails)).map Prod.fst).Sublist
          ((if lite then lite_checks else full_checks).map Prod.fst) :=
      (List.filter_sublist _).map Prod.fst
    have hnodup : ((if lite then lite_checks else full_checks).map Prod.fst).Nodup := by
      cases lite <;> decide
    exact hnodup.sublist hsub
  · intro h
    rw [main_run_fst]
    have hs : summaryLines (runChecks (if lite then lite_checks else full_checks) env).2 =
        [Line.failedSummary
          (runChecks (if lite then lite_checks else full_checks) env).2.length
          (runChecks (if lite then lite_checks else full_checks) env).2] := by
      cases hfs : (runChecks (if lite then lite_checks else full_checks) env).2 with
      | nil => exact absurd hfs h
      | cons a l => rfl
    rw [hs]
    simp

/-- C5 witness: with exactly the Pandas check failing in a full run, the
summary line carries count 1 and the single name Pandas. -/
theorem C5_failure_summary_witness :
    Line.failedSummary 1 ["Pandas"] ∈ (main_run "py" "3.12" false pandasFailEnv).1 := by
  have h := (C5_failure_summary "py" "3.12" false pandasFailEnv).2.2 (by decide)
  have hfs : (runChecks (if false then lite_checks else full_checks) pandasFailEnv).2 =
      ["Pandas"] := by decide
  rw [hfs] at h
  exact h

/-- C6: every exception raised during a check's load-or-verify sequence
is caught at the per-check boundary and recorded by appending the display
name to the failure list, and no per-check outcome ever prevents the run
from reaching the final summary. -/
theorem C6_exception_boundary (n i msg : String) (e : CheckEnv) (f : List String)
    (p v : String) (lite : Bool) (env : String → CheckEnv) :
    (e.importResult = Except.error msg → (run_check n i e f).2 = f ++ [n]) ∧
    (e.fnResult = Except.error msg → (run_check n i e f).2 = f ++ [n]) ∧
    Line.resultHeader ∈ (main_run p v lite env).1 := by
  refine ⟨?_, ?_, ?_⟩
  · intro h
    rcases e with ⟨ir, fr⟩
    cases ir <;> cases fr <;> simp_all [run_check]
  · intro h
    rcases e with ⟨ir, fr⟩
    cases ir <;> cases fr <;> simp_all [run_check]
  · rw [main_run_fst]
    simp

/-- C6 witness: a failing import is recorded as a failure, and a run in
which every check raises still reaches the result summary. -/
theorem C6_exception_boundary_witness :
    (run_check "NumPy" "numpy"
        ⟨Except.error "No module named numpy", Except.ok ()⟩ []).2 = [] ++ ["NumPy"] ∧
    Line.resultHeader ∈ (main_run "py" "3.12" false allOkEnv).1 := by
  have h := C6_exception_boundary "NumPy" "numpy" "No module named numpy"
      ⟨Except.error "No module named numpy", Except.ok ()⟩ [] "py" "3.12" false allOkEnv
  exact ⟨h.1 rfl, h.2.2⟩

/-- C7 counterexample: for a check whose module fails to load, the output
is only the header, the FAIL status line and the truncated traceback; the
module and version lines the claim requires are absent. -/
theorem C7_counterexample :
    (run_check "NumPy" "numpy"
        ⟨Except.error "No module named numpy", Except.ok ()⟩ []).1 =
      [Line.checkHeader "NumPy", Line.statusFail "No module named numpy",
       Line.tracebackDepth1] ∧
    Line.moduleLine "numpy" ∉
      (run_check "NumPy" "numpy"
        ⟨Except.error "No module named numpy", Except.ok ()⟩ []).1 ∧
    Line.versionLine "unknown" ∉
      (run_check "NumPy" "numpy"
        ⟨Except.error "No module named numpy", Except.ok ()⟩ []).1 :=
  ⟨rfl, by decide, by decide⟩

/-- C7 amended: for a check whose module loads, the output is (in order)
the header, the module line, the version line, then either the OK status
line, or the FAIL status line followed by the truncated traceback; for a
check whose module fails to load, the output is the header, the FAIL
status line and the truncated traceback, with no module or version
lines. -/
theorem C7_output_contract (n i : String) (e : CheckEnv) (f : List String) :
    (∀ m, e.importResult = Except.ok m →
      (e.fnResult = Except.ok () →
        (run_check n i e f).1 =
          [Line.checkHeader n, Line.moduleLine i,
           Line.versionLine (module_version m), Line.statusOK]) ∧
      (∀ msg, e.fnResult = Except.error msg →
        (run_check n i e f).1 =
          [Line.checkHeader n, Line.moduleLine i,
           Line.versionLine (module_version m), Line.statusFail msg,
           Line.tracebackDepth1])) ∧
    (∀ msg, e.importResult = Except.error msg →
      (run_check n i e f).1 =
        [Line.checkHeader n, Line.statusFail msg, Line.tracebackDepth1]) := by
  rcases e with ⟨ir, fr⟩
  constructor
  · intro m hm
    constructor
    · intro hfn
      cases ir <;> cases fr <;> simp_all [run_check]
    · intro msg hfn
      cases ir <;> cases fr <;> simp_all [run_check]
  · intro msg hm
    cases ir <;> cases fr <;> simp_all [run_check]

/-- C7 amended witness: a loaded module with a passing verification
prints header, module, version and OK lines in order. -/
theorem C7_output_contract_witness :
    (run_check "NumPy" "numpy" ⟨Except.ok sampleModule, Except.ok ()⟩ []).1 =
      [Line.checkHeader "NumPy", Line.moduleLine "numpy",
       Line.versionLine "1.0", Line.statusOK] :=
  ((C7_output_contract "NumPy" "numpy"
      ⟨Except.ok sampleModule, Except.ok ()⟩ []).1 sampleModule rfl).1 rfl

/-- C8 counterexample: the per-check routine receives the shared failure
accumulator and returns it extended — its failures result contains
another check's previously recorded name and changes with the accumulator
passed in, contradicting the claim that each invocation returns a
standalone per-check result with no shared accumulator passed by
reference into the routine. -/
theorem C8_counterexample :
    (run_check "NumPy" "numpy" ⟨Except.error "boom", Except.ok ()⟩ ["Pandas"]).2 =
      ["Pandas", "NumPy"] ∧
    (run_check "NumPy" "numpy" ⟨Except.error "boom", Except.ok ()⟩ ["Pandas"]).2 ≠
      (run_check "NumPy" "numpy" ⟨Except.error "boom", Except.ok ()⟩ []).2 :=
  ⟨rfl, by decide⟩

/-- C8 amended: the source's `run_check` takes the shared failures list
and appends the display name on failure (embedded as explicit state
passing); nevertheless the accumulated failure list is observationally
equal to folding the sequence of independently computed per-check
outcomes into a summary, as the spec's strategy note describes. -/
theorem C8_fold_equivalence (checks : List (String × String)) (env : String → CheckEnv) :
    (runChecks checks env).2 =
      (checks.map (fun c => (c.1, (env c.1).fails))).foldr
        (fun r acc => if r.2 then r.1 :: acc else acc) [] := by
  rw [runChecks_snd]
  induction checks with
  | nil => rfl
  | cons c cs ih =>
    simp only [List.filter_cons, List.map_cons, List.foldr_cons]
    cases h : (env c.1).fails <;> simp [h, ih]

/-- C9: a command line containing any argument other than the recognized
`--lite` flag (a positional argument or an unknown option) makes argument
parsing terminate the process with argparse's error status 2 — neither 0
nor 1 — before any preamble or check output is produced. -/
theorem C9_argparse_error (p v a : String) (argv : List String)
    (env : String → CheckEnv) (ha : a ∈ argv) (hne : a ≠ "--lite") :
    (program p v argv env).2 = 2 ∧
    (program p v argv env).1 = [] ∧
    (program p v argv env).2 ≠ 0 ∧
    (program p v argv env).2 ≠ 1 := by
  have hparse : parse_args argv = Except.error 2 := by
    unfold parse_args
    have hall : ¬(argv.all (fun x => x = "--lite") = true) := by
      intro hall
      exact hne (by simpa using List.all_eq_true.mp hall a ha)
    rw [if_neg hall]
  refine ⟨?_, ?_, ?_, ?_⟩ <;> simp [program, hparse]

/-- C9 witness: an unrecognized flag yields exit status 2 and no check
output. -/
theorem C9_argparse_error_witness :
    (program "py" "3.12" ["--bogus"] allOkEnv).2 = 2 ∧
    (program "py" "3.12" ["--bogus"] allOkEnv).1 = [] := by
  have h := C9_argparse_error "py" "3.12" "--bogus" ["--bogus"] allOkEnv
      (by decide) (by decide)
  exact ⟨h.1, h.2.1⟩

/-- C10: for every run, the first two output lines are exactly the Python
executable and Python version preamble lines; they contain no check
header, and every `[CHECK]` header comes after them, one per selected
check in order. -/
theorem C10_preamble (p v : String) (lite : Bool) (env : String → CheckEnv) :
    (main_run p v lite env).1.take 2 =
      [Line.pythonExecutable p, Line.pythonVersion v] ∧
    headersOf ((main_run p v lite env).1.take 2) = [] ∧
    headersOf ((main_run p v lite env).1.drop 2) =
      (if lite then lite_checks else full_checks).map Prod.fst := by
  rw [main_run_fst]
  refine ⟨rfl, rfl, ?_⟩
  show headersOf
      ((runChecks (if lite then lite_checks else full_checks) env).1 ++
        [Line.blank, Line.resultHeader] ++
        summaryLines (runChecks (if lite then lite_checks else full_checks) env).2) = _
  simp [headersOf_append, headersOf_runChecks, headersOf_summaryLines,
    headersOf_cons, headersOf_nil]

end TermuxSci
